import Mathlib

/-!
Verification of the spreadsheet-to-dataframe core: the date decoder
(`Date::from_excel_datetype`, `Date::from_numbers`), the cell classifier
(`into_cell_value`, `DataFrame::handle_dates`) and the table builder
(`DataFrame::read_from_xlsx`), shallowly embedded from `src/main.rs`.

Modelling conventions:
- Rust `u32`/`u16`/`u8` values are `Nat`; a cast `x as u8` is `x % 256`.
- Rust `i64` values are `Int`; the `i32` range check uses the literal bounds.
- `f64` payloads are never inspected by the classifier, so they are carried
  as opaque bit patterns (`F64`).
- The two `while` loops of `from_excel_datetype` are fuel-indexed functions
  returning `Option`; `none` stands for non-termination of the source loop
  and is proved unreachable for every serial the function accepts.
- A Rust `panic!`/`todo!()` is modelled as `none` in an `Option` result.
-/

/-- Error taxonomy of the date decoder, from `enum DateParseError`. -/
inductive DateParseError where
  | UnsupportedFormat
  | InvalidDay
  | InvalidMonth
  | InvalidYear
  | InvalidSerialNumber
  | InvalidDate
deriving DecidableEq

/-- Calendar date, from `struct Date { year: u32, month: u8, day: u8 }`. -/
structure Date where
  year : Nat
  month : Nat
  day : Nat
deriving DecidableEq

/-- From `Date::is_leap_year`: divisible by 4 and not by 100, or by 400. -/
def is_leap_year (year : Nat) : Bool :=
  (year % 4 == 0 && year % 100 != 0) || year % 400 == 0

/-- From `Date::days_in_year`: 366 in leap years, else 365. -/
def days_in_year (year : Nat) : Nat :=
  if is_leap_year year then 366 else 365

/-- From `Date::days_in_month`; months outside 1..12 give 0, as in the source. -/
def days_in_month (year month : Nat) : Nat :=
  match month with
  | 1 | 3 | 5 | 7 | 8 | 10 | 12 => 31
  | 4 | 6 | 9 | 11 => 30
  | 2 => if is_leap_year year then 29 else 28
  | _ => 0

/-- From `from_excel_datetype`: serials above 60 are decremented by one,
compensating for the legacy fictitious 1900-02-29. -/
def corrected_serial (serial : Nat) : Nat :=
  if serial > 60 then serial - 1 else serial

/-- The first `while` loop of `from_excel_datetype`: subtract whole years
starting at the base year while enough days remain.  Fuel-indexed; each
iteration removes at least 365 days, so fuel `days + 1` always suffices
(`yearLoopF_complete`). -/
def yearLoopF : Nat → Nat → Nat → Option (Nat × Nat)
  | 0, _, _ => none
  | fuel + 1, year, days =>
    if days_in_year year ≤ days then
      yearLoopF fuel (year + 1) (days - days_in_year year)
    else
      some (year, days)

/-- The second `while` loop of `from_excel_datetype`: subtract whole months
starting at month 1 while enough days remain.  Fuel-indexed; when the
remaining days are fewer than the year's length, fuel 13 suffices
(`monthLoop_complete`). -/
def monthLoop : Nat → Nat → Nat → Nat → Option (Nat × Nat)
  | 0, _, _, _ => none
  | fuel + 1, year, month, days =>
    if days_in_month year month ≤ days then
      monthLoop fuel year (month + 1) (days - days_in_month year month)
    else
      some (month, days)

/-- From `Date::from_excel_datetype`.  The outer `Option` is the loop-fuel
layer: `some r` means the source terminates with result `r`, `none` would
mean divergence (proved unreachable).  `days_remaining2 % 256` models the
`days_remaining as u8` cast. -/
def from_excel_datetype (serial : Nat) : Option (Except DateParseError Date) :=
  if serial < 1 then some (Except.error DateParseError.InvalidSerialNumber)
  else
    match yearLoopF (corrected_serial serial - 1 + 1) 1900 (corrected_serial serial - 1) with
    | none => none
    | some (year, days_remaining) =>
      match monthLoop 13 year 1 days_remaining with
      | none => none
      | some (month, days_remaining2) =>
        if days_in_month year month < days_remaining2 % 256 + 1 then
          some (Except.error DateParseError.InvalidDate)
        else
          some (Except.ok ⟨year, month, days_remaining2 % 256 + 1⟩)

/-- From `from_numbers`: the array `months_with_31_days`. -/
def months_with_31_days : List Nat := [1, 3, 5, 7, 8, 10, 12]

/-- The validation chain of `Date::from_numbers`, shared by the three format
arms: the early-return `if` cascade after the format match, written as a
flat conditional chain (the nested February branches are flattened). -/
def fromNumbersValidate (year month day : Nat) : Except DateParseError Date :=
  if 32 ≤ day then Except.error DateParseError.InvalidDay
  else if month ∉ months_with_31_days ∧ ¬ day ≤ 31 then Except.error DateParseError.InvalidDay
  else if month = 2 ∧ is_leap_year year ∧ 29 < day then Except.error DateParseError.InvalidDay
  else if month = 2 ∧ ¬ is_leap_year year ∧ 28 < day then Except.error DateParseError.InvalidDay
  else if ¬ (1 ≤ month ∧ month ≤ 12) then Except.error DateParseError.InvalidMonth
  else if year = 0 then Except.error DateParseError.InvalidYear
  else Except.ok ⟨year, month, day⟩

/-- From `Date::from_numbers`: dispatch on the format string; the `as u8`
casts on the month and day fragments are the `% 256` reductions. -/
def from_numbers (frag1 frag2 frag3 : Nat) (format : String) : Except DateParseError Date :=
  if format = "YYYY/MM/DD" then fromNumbersValidate frag1 (frag2 % 256) (frag3 % 256)
  else if format = "DD/MM/YYYY" then fromNumbersValidate frag3 (frag2 % 256) (frag1 % 256)
  else if format = "MM/DD/YYYY" then fromNumbersValidate frag3 (frag1 % 256) (frag2 % 256)
  else Except.error DateParseError.UnsupportedFormat

/-- Opaque 64-bit float payload (`f64`): the classifier carries it around
without inspecting it, so only its identity matters. -/
structure F64 where
  bits : Nat
deriving DecidableEq

/-- Spreadsheet cell error payload (calamine `CellErrorType`); the classifier
only checks its presence. -/
inductive CellError where
  | Div0
  | NA
  | Name
  | Null
  | Num
  | Ref
  | Value
  | GettingData
deriving DecidableEq

/-- A probe-capable raw cell: the capability interface `into_cell_value` and
`handle_dates` are written against (`get_int`, `get_float`, `get_string`,
`get_bool`, `is_empty`, `get_error`, and the `Data::DateTime` variant check).
`datetime_serial` is `some s` when the cell is a date-time payload whose
`as_f64() as u32` truncation is the serial `s`. -/
structure RawCell where
  get_int : Option Int
  get_float : Option F64
  get_string : Option String
  get_bool : Option Bool
  is_empty : Bool
  get_error : Option CellError
  datetime_serial : Option Nat
deriving DecidableEq

/-- Typed cell values, from `enum CellValues`; `Int` carries an `i32`-range
value, `Float` an opaque `f64`, booleans are rendered as text upstream. -/
inductive CellValues where
  | Int (val : Int)
  | Float (val : F64)
  | Text (val : String)
  | Date (val : Date)
deriving DecidableEq

/-- From `fn into_cell_value(data: &dyn DataType)`: the `if let`/`else if`
chain.  When `get_int` succeeds with an out-of-range value, the chain is
exited (the `else if` arms belong to the failed outer `if let`) and the final
`None` is returned — later probes are not consulted.  The boolean branch
renders the boolean via its `to_string()`. -/
def into_cell_value (data : RawCell) : Option CellValues :=
  match data.get_int with
  | some val =>
    if -2147483648 ≤ val ∧ val ≤ 2147483647 then some (CellValues.Int val) else none
  | none =>
    match data.get_float with
    | some val => some (CellValues.Float val)
    | none =>
      match data.get_string with
      | some val => some (CellValues.Text val)
      | none =>
        match data.get_bool with
        | some val => some (CellValues.Text (if val then "true" else "false"))
        | none =>
          if data.is_empty then none
          else
            match data.get_error with
            | some _ => none
            | none => none

/-- From `DataFrame::handle_dates`: only a `Data::DateTime` cell is decoded;
the `.ok()` call swallows any decoder error into `None`. -/
def handle_dates (data : RawCell) : Option Date :=
  match data.datetime_serial with
  | some serial =>
    match from_excel_datetype serial with
    | some (Except.ok date) => some date
    | _ => none
  | none => none

/-- Wrapper for one cell value, from `struct Cell { value: Option<CellValues> }`. -/
structure Cell where
  value : Option CellValues
deriving DecidableEq

/-- Per-cell step of the `read_from_xlsx` inner loop: classify, fall back to
date handling, otherwise an empty cell. -/
def cell_of_raw (c : RawCell) : Cell :=
  match into_cell_value c with
  | some v => ⟨some v⟩
  | none =>
    match handle_dates c with
    | some d => ⟨some (CellValues.Date d)⟩
    | none => ⟨none⟩

/-- The row/cell loops of `DataFrame::read_from_xlsx` over a worksheet range. -/
def build_rows (rows : List (List RawCell)) : List (List Cell) :=
  rows.map (fun row => row.map cell_of_raw)

/-- From `DataFrame::read_from_xlsx`: the workbook is modelled as a sheet-name
to range association; a missing sheet leaves the data empty.  The
`provided_with_headers` argument is accepted but never consulted, as in the
source. -/
def read_from_xlsx (sheets : List (String × List (List RawCell)))
    (provided_sheet_name : Option String) (provided_with_headers : Option Bool) :
    List (List Cell) :=
  let sheet_name := provided_sheet_name.getD "Sheet1"
  match sheets.find? (fun s => s.1 == sheet_name) with
  | some (_, rows) => build_rows rows
  | none => []

/-- A raw cell holding only an integer payload. -/
def rawInt (n : Int) : RawCell := ⟨some n, none, none, none, false, none, none⟩

/-- A raw cell that is empty under every probe. -/
def rawEmpty : RawCell := ⟨none, none, none, none, true, none, none⟩

/-- Modelled from the spec's dispatch list (§4.2, claim C6 as stated):
first match wins among (1) integer extraction succeeding with a fitting
value → Integer, (2) float extraction → Float, (3) string extraction →
Text, (4) boolean extraction → Text, (5) emptiness → no value, (6) error →
no value, (7) otherwise no value.  `classify_tail` is the chain from step 2
onward. -/
def classify_tail (data : RawCell) : Option CellValues :=
  match data.get_float with
  | some val => some (CellValues.Float val)
  | none =>
    match data.get_string with
    | some val => some (CellValues.Text val)
    | none =>
      match data.get_bool with
      | some val => some (CellValues.Text (if val then "true" else "false"))
      | none =>
        if data.is_empty then none
        else
          match data.get_error with
          | some _ => none
          | none => none

/-- Modelled from the spec's dispatch list (claim C6 as stated): a cell whose
integer extraction succeeds but does not fit falls through to the float
probe and the rest of the chain. -/
def classify_claim (data : RawCell) : Option CellValues :=
  match data.get_int with
  | some val =>
    if -2147483648 ≤ val ∧ val ≤ 2147483647 then some (CellValues.Int val)
    else classify_tail data
  | none => classify_tail data

/-- The amended dispatch (claim C6 corrected): when integer extraction
succeeds with an out-of-range value the result is no value and later probes
are not consulted; only when integer extraction fails does the chain move on
to float, string, boolean, and the no-value terminal cases. -/
def classify_amended (data : RawCell) : Option CellValues :=
  match data.get_int with
  | some val =>
    if -2147483648 ≤ val ∧ val ≤ 2147483647 then some (CellValues.Int val)
    else none
  | none => classify_tail data

/-- From `impl fmt::Display for DateParseError`: the two defensive variants
hit a `todo!()` panic, modelled as `none`; the other four format to their
fixed messages. -/
def displayDateParseError : DateParseError → Option String
  | DateParseError.UnsupportedFormat => some "Unsupported date format"
  | DateParseError.InvalidDay => some "Invalid day"
  | DateParseError.InvalidMonth => some "Invalid month"
  | DateParseError.InvalidYear => some "Invalid year"
  | DateParseError.InvalidSerialNumber => none
  | DateParseError.InvalidDate => none

example : into_cell_value (rawInt 5) = some (CellValues.Int 5) := rfl
example : into_cell_value ⟨none, some ⟨55⟩, none, none, false, none, none⟩ =
    some (CellValues.Float ⟨55⟩) := rfl
example : into_cell_value ⟨none, none, some "hi", none, false, none, none⟩ =
    some (CellValues.Text "hi") := rfl
example : into_cell_value rawEmpty = none := rfl
example : into_cell_value ⟨some 2147483648, some ⟨7⟩, none, none, false, none, none⟩ = none := rfl
example : classify_claim ⟨some 2147483648, some ⟨7⟩, none, none, false, none, none⟩ =
    some (CellValues.Float ⟨7⟩) := rfl
example : build_rows [[rawInt 1], []] = [[⟨some (CellValues.Int 1)⟩], []] := rfl

example : from_excel_datetype 1 = some (Except.ok ⟨1900, 1, 1⟩) := rfl
example : from_excel_datetype 60 = some (Except.ok ⟨1900, 3, 1⟩) := rfl
example : from_excel_datetype 61 = some (Except.ok ⟨1900, 3, 1⟩) := rfl
example : from_excel_datetype 0 = some (Except.error DateParseError.InvalidSerialNumber) := rfl
example : from_numbers 4 2 2000 "DD/MM/YYYY" = Except.ok ⟨2000, 2, 4⟩ := rfl
example : from_numbers 31 4 2023 "DD/MM/YYYY" = Except.ok ⟨2023, 4, 31⟩ := rfl
example : from_numbers 29 2 2023 "DD/MM/YYYY" = Except.error DateParseError.InvalidDay := rfl
example : from_numbers 29 2 2024 "DD/MM/YYYY" = Except.ok ⟨2024, 2, 29⟩ := rfl
example : from_numbers 1 2 3 "unknown" = Except.error DateParseError.UnsupportedFormat := rfl

/-! ### Loop invariants for `from_excel_datetype` -/

theorem days_in_year_ge (year : Nat) : 365 ≤ days_in_year year := by
  unfold days_in_year
  split <;> omega

theorem days_in_month_le31 (year month : Nat) : days_in_month year month ≤ 31 := by
  unfold days_in_month
  split <;> first
    | omega
    | (split <;> omega)

/-- The year loop always finishes within its fuel and leaves fewer remaining
days than the length of the year it stops in. -/
theorem yearLoopF_complete :
    ∀ fuel year days, days < fuel →
      ∃ y d, yearLoopF fuel year days = some (y, d) ∧ d < days_in_year y := by
  intro fuel
  induction fuel with
  | zero => intro year days h; omega
  | succ fuel ih =>
    intro year days h
    by_cases hle : days_in_year year ≤ days
    · have h365 := days_in_year_ge year
      have hrec := ih (year + 1) (days - days_in_year year) (by omega)
      simpa [yearLoopF, hle] using hrec
    · exact ⟨year, days, by simp [yearLoopF, hle], by omega⟩

/-- Total length of months `k..12` of a year (0 beyond month 12); used to
show the month loop exhausts within the year. -/
def monthsTailSum (year k : Nat) : Nat :=
  if k ≤ 12 then days_in_month year k + monthsTailSum year (k + 1) else 0
termination_by 13 - k

theorem monthsTailSum_step (year k : Nat) (h : k ≤ 12) :
    monthsTailSum year k = days_in_month year k + monthsTailSum year (k + 1) := by
  rw [monthsTailSum]
  exact if_pos h

theorem monthsTailSum_base (year : Nat) : monthsTailSum year 13 = 0 := by
  rw [monthsTailSum]
  exact if_neg (by omega)

/-- The months of a year sum to the year's length. -/
theorem monthsTailSum_one (year : Nat) : monthsTailSum year 1 = days_in_year year := by
  rw [monthsTailSum_step year 1 (by omega), monthsTailSum_step year 2 (by omega),
    monthsTailSum_step year 3 (by omega), monthsTailSum_step year 4 (by omega),
    monthsTailSum_step year 5 (by omega), monthsTailSum_step year 6 (by omega),
    monthsTailSum_step year 7 (by omega), monthsTailSum_step year 8 (by omega),
    monthsTailSum_step year 9 (by omega), monthsTailSum_step year 10 (by omega),
    monthsTailSum_step year 11 (by omega), monthsTailSum_step year 12 (by omega),
    monthsTailSum_base]
  by_cases h : is_leap_year year = true <;>
    simp [days_in_month, days_in_year, h]

/-- With fewer remaining days than the tail of the year, the month loop
finishes within its fuel, stops at a month in 1..12, and leaves fewer days
than that month's length. -/
theorem monthLoop_complete :
    ∀ fuel year k d, 1 ≤ k → k ≤ 12 → d < monthsTailSum year k → 13 - k < fuel →
      ∃ m e, monthLoop fuel year k d = some (m, e) ∧
        1 ≤ m ∧ m ≤ 12 ∧ e < days_in_month year m := by
  intro fuel
  induction fuel with
  | zero => intro year k d _ hk2 _ hf; omega
  | succ fuel ih =>
    intro year k d hk1 hk2 hd hf
    by_cases hle : days_in_month year k ≤ d
    · have hk12 : k < 12 := by
        by_contra hc
        have hk' : k = 12 := by omega
        subst hk'
        rw [monthsTailSum_step year 12 (by omega), monthsTailSum_base] at hd
        omega
      have hd2 : d - days_in_month year k < monthsTailSum year (k + 1) := by
        rw [monthsTailSum_step year k hk2] at hd
        omega
      have hrec := ih year (k + 1) (d - days_in_month year k) (by omega) (by omega) hd2 (by omega)
      simpa [monthLoop, hle] using hrec
    · exact ⟨k, d, by simp [monthLoop, hle], hk1, hk2, by omega⟩

/-- Every serial the decoder accepts yields a date: the loops never exhaust
their fuel and the defensive day check never fires. -/
theorem from_excel_datetype_total :
    ∀ serial, 1 ≤ serial → ∃ d, from_excel_datetype serial = some (Except.ok d) := by
  intro serial hs
  obtain ⟨y, dr, hy, hdr⟩ :=
    yearLoopF_complete (corrected_serial serial - 1 + 1) 1900 (corrected_serial serial - 1)
      (by omega)
  have hdr2 : dr < monthsTailSum y 1 := by rw [monthsTailSum_one]; exact hdr
  obtain ⟨m, e, hm, hm1, hm12, he⟩ := monthLoop_complete 13 y 1 dr (by omega) (by omega) hdr2
    (by omega)
  have hlt31 : e < 256 := lt_of_lt_of_le he (le_trans (days_in_month_le31 y m) (by omega))
  have he256 : e % 256 = e := Nat.mod_eq_of_lt hlt31
  refine ⟨⟨y, m, e % 256 + 1⟩, ?_⟩
  unfold from_excel_datetype
  rw [if_neg (by omega)]
  simp only [hy, hm]
  rw [if_neg (by omega)]

/-! ### Claims -/

/-- Claim C1 (code_bug evaluation): `decode_serial(60)` does not produce the
fictitious 1900-02-29 — `days_in_month` applies the real Gregorian rule to
February 1900 (28 days), so serial 60 decodes to 1900-03-01, colliding with
serial 61. -/
theorem c1_serial60_code_eval :
    from_excel_datetype 60 = some (Except.ok ⟨1900, 3, 1⟩) ∧
    from_excel_datetype 60 ≠ some (Except.ok ⟨1900, 2, 29⟩) := by
  refine ⟨rfl, ?_⟩
  intro h
  have h2 : (⟨1900, 3, 1⟩ : Date) = ⟨1900, 2, 29⟩ :=
    Except.ok.inj (Option.some.inj h)
  exact absurd (congrArg Date.month h2) (by decide)

/-- Claim C2 (code_bug evaluation): `decode_components(31, 4, 2023,
"DD/MM/YYYY")` is accepted as April 31 instead of failing with `InvalidDay`
— the 30-day-month bound `!(day <= 31)` is unsatisfiable after the
`day >= 32` early return. -/
theorem c2_april31_code_eval :
    from_numbers 31 4 2023 "DD/MM/YYYY" = Except.ok ⟨2023, 4, 31⟩ ∧
    from_numbers 31 4 2023 "DD/MM/YYYY" ≠ Except.error DateParseError.InvalidDay := by
  refine ⟨rfl, ?_⟩
  intro h
  have h2 : Except.ok (⟨2023, 4, 31⟩ : Date) =
      Except.error DateParseError.InvalidDay := h
  exact Except.noConfusion h2

/-- Claim C3: `decode_serial(1)` is the epoch day 1900-01-01,
`decode_serial(61)` is 1900-03-01, and every serial above 60 is decremented
by one before conversion. -/
theorem c3_quirk_boundary :
    from_excel_datetype 1 = some (Except.ok ⟨1900, 1, 1⟩) ∧
    from_excel_datetype 61 = some (Except.ok ⟨1900, 3, 1⟩) ∧
    ∀ serial, 60 < serial → corrected_serial serial = serial - 1 := by
  refine ⟨rfl, rfl, ?_⟩
  intro serial h
  unfold corrected_serial
  rw [if_pos h]

theorem c3_quirk_boundary_witness : corrected_serial 61 = 60 :=
  c3_quirk_boundary.2.2 61 (by omega)

/-- Claim C4: `decode_serial` fails exactly on serial 0 (serial < 1), with
`InvalidSerialNumber`; every serial ≥ 1 yields a date, so the defensive
`InvalidDate` branch is never taken. -/
theorem c4_serial_errors :
    from_excel_datetype 0 = some (Except.error DateParseError.InvalidSerialNumber) ∧
    (∀ serial e, from_excel_datetype serial = some (Except.error e) → serial = 0 ∧
      e = DateParseError.InvalidSerialNumber) ∧
    ∀ serial, 1 ≤ serial → ∃ d, from_excel_datetype serial = some (Except.ok d) := by
  refine ⟨rfl, ?_, from_excel_datetype_total⟩
  intro serial e he
  by_cases h0 : serial = 0
  · subst h0
    refine ⟨rfl, ?_⟩
    have : some (Except.error DateParseError.InvalidSerialNumber) =
        some (Except.error e) := he
    simpa using this.symm
  · exfalso
    obtain ⟨d, hd⟩ := from_excel_datetype_total serial (by omega)
    rw [hd] at he
    simp at he

theorem c4_serial_errors_witness : ∃ d, from_excel_datetype 3 = some (Except.ok d) :=
  c4_serial_errors.2.2 3 (by omega)

/-- Claim C5: the three fragments are mapped to (year, month, day) per the
format tag — `"YYYY/MM/DD"` as (frag1, frag2, frag3), `"DD/MM/YYYY"` as
(frag3, frag2, frag1), `"MM/DD/YYYY"` as (frag3, frag1, frag2), stated for
month/day fragments within the `u8` range the source casts into — the
worked example holds, and every other format string fails with
`UnsupportedFormat` for all fragments. -/
theorem c5_format_dispatch :
    from_numbers 4 2 2000 "DD/MM/YYYY" = Except.ok ⟨2000, 2, 4⟩ ∧
    (∀ f1 f2 f3 fmt, fmt ≠ "YYYY/MM/DD" → fmt ≠ "DD/MM/YYYY" → fmt ≠ "MM/DD/YYYY" →
      from_numbers f1 f2 f3 fmt = Except.error DateParseError.UnsupportedFormat) ∧
    ∀ y m d, m < 256 → d < 256 →
      from_numbers y m d "YYYY/MM/DD" = fromNumbersValidate y m d ∧
      from_numbers d m y "DD/MM/YYYY" = fromNumbersValidate y m d ∧
      from_numbers m d y "MM/DD/YYYY" = fromNumbersValidate y m d := by
  refine ⟨rfl, ?_, ?_⟩
  · intro f1 f2 f3 fmt h1 h2 h3
    unfold from_numbers
    rw [if_neg h1, if_neg h2, if_neg h3]
  · intro y m d hm hd
    have hm' : m % 256 = m := Nat.mod_eq_of_lt hm
    have hd' : d % 256 = d := Nat.mod_eq_of_lt hd
    refine ⟨?_, ?_, ?_⟩
    · unfold from_numbers
      rw [if_pos rfl, hm', hd']
    · unfold from_numbers
      rw [if_neg (by decide), if_pos rfl, hm', hd']
    · unfold from_numbers
      rw [if_neg (by decide), if_neg (by decide), if_pos rfl, hm', hd']

theorem c5_format_dispatch_witness :
    from_numbers 1 2 3 "unknown" = Except.error DateParseError.UnsupportedFormat ∧
    from_numbers 2000 2 4 "YYYY/MM/DD" = fromNumbersValidate 2000 2 4 :=
  ⟨c5_format_dispatch.2.1 1 2 3 "unknown" (by decide) (by decide) (by decide),
   (c5_format_dispatch.2.2 2000 2 4 (by decide) (by decide)).1⟩

/-- Claim C6 counterexample: a raw cell whose integer probe yields the
out-of-range 2³¹ and whose float probe succeeds is classified as no value by
the source, whereas the claim's dispatch list would classify it as Float —
the source's `else if` chain is skipped once the integer probe matches. -/
theorem c6_dispatch_counterexample :
    into_cell_value ⟨some 2147483648, some ⟨5⟩, none, none, false, none, none⟩ = none ∧
    classify_claim ⟨some 2147483648, some ⟨5⟩, none, none, false, none, none⟩ =
      some (CellValues.Float ⟨5⟩) :=
  ⟨rfl, rfl⟩

/-- Claim C6 as amended: first-match dispatch where a successful integer
probe is terminal — fitting values yield Integer and non-fitting values
yield no value without consulting later probes; only when the integer probe
fails do float, string and boolean extraction apply in order, and empty,
error-bearing and all remaining cells yield no value. -/
theorem c6_dispatch_amended :
    ∀ data : RawCell, into_cell_value data = classify_amended data := by
  intro data
  rcases data with ⟨i, f, s, b, emp, err, dt⟩
  cases i <;> cases f <;> cases s <;> cases b <;> cases emp <;> cases err <;> rfl

/-- Claim C7: an integer probe succeeding outside the 32-bit signed range
with no float fallback yields no value — the datum is silently dropped. -/
theorem c7_out_of_range_dropped :
    ∀ (data : RawCell) (v : Int), data.get_int = some v →
      (v < -2147483648 ∨ 2147483647 < v) → data.get_float = none →
      into_cell_value data = none := by
  intro data v hv hrange _
  have hcond : ¬ (-2147483648 ≤ v ∧ v ≤ 2147483647) := by omega
  unfold into_cell_value
  simp only [hv, if_neg hcond]

theorem c7_out_of_range_dropped_witness :
    into_cell_value ⟨some 2147483648, none, none, none, false, none, none⟩ = none :=
  c7_out_of_range_dropped ⟨some 2147483648, none, none, none, false, none, none⟩
    2147483648 rfl (Or.inr (by decide)) rfl

/-- Claim C8: the build preserves shape exactly — same number of rows;
per-row, the cell count equals the raw cell count (stated via `get?`, which
also fixes the order and needs no bound); the jagged example keeps its two
rows of lengths 1 and 0; and a raw cell that neither classifies nor decodes
as a date becomes a `Cell` with no value rather than aborting (the build is a
total function by construction). -/
theorem c8_build_shape :
    (∀ rows : List (List RawCell), (build_rows rows).length = rows.length) ∧
    (∀ (rows : List (List RawCell)) (i : Nat),
      ((build_rows rows).get? i).map List.length = (rows.get? i).map List.length) ∧
    build_rows [[rawInt 1], []] = [[⟨some (CellValues.Int 1)⟩], []] ∧
    ∀ c : RawCell, into_cell_value c = none → handle_dates c = none →
      cell_of_raw c = ⟨none⟩ := by
  refine ⟨?_, ?_, rfl, ?_⟩
  · intro rows
    simp [build_rows]
  · intro rows i
    simp only [build_rows, List.get?_eq_getElem?, List.getElem?_map]
    cases rows[i]? <;> simp
  · intro c h1 h2
    simp [cell_of_raw, h1, h2]

theorem c8_build_shape_witness :
    ((build_rows [[rawInt 1], []]).get? 1).map List.length =
      (([[rawInt 1], []] : List (List RawCell)).get? 1).map List.length ∧
    cell_of_raw rawEmpty = ⟨none⟩ :=
  ⟨c8_build_shape.2.1 [[rawInt 1], []] 1, c8_build_shape.2.2.2 rawEmpty rfl rfl⟩

/-- Claim C9: the header-handling flag is accepted but never consulted — for
every workbook and sheet selection, runs differing only in
`provided_with_headers` build the identical table. -/
theorem c9_header_flag_ignored :
    ∀ (sheets : List (String × List (List RawCell))) (name : Option String)
      (h1 h2 : Option Bool),
      read_from_xlsx sheets name h1 = read_from_xlsx sheets name h2 :=
  fun _ _ _ _ => rfl

/-- Claim C10: the `Display` implementation hits a `todo!()` panic (modelled
as `none`) exactly on `InvalidSerialNumber` and `InvalidDate`, and renders
the other four variants to their fixed messages. -/
theorem c10_display_todo :
    displayDateParseError DateParseError.InvalidSerialNumber = none ∧
    displayDateParseError DateParseError.InvalidDate = none ∧
    displayDateParseError DateParseError.UnsupportedFormat = some "Unsupported date format" ∧
    displayDateParseError DateParseError.InvalidDay = some "Invalid day" ∧
    displayDateParseError DateParseError.InvalidMonth = some "Invalid month" ∧
    displayDateParseError DateParseError.InvalidYear = some "Invalid year" :=
  ⟨rfl, rfl, rfl, rfl, rfl, rfl⟩
